import Mathlib

/-!
Verification of the orientation-card component (src/src/js/components/orientation-card.js).

The component owns two CardMesh panels (background and header), wires three host
event listeners (stateadded, stateremoved, raycaster-cursor-up), and drives the
panels every frame from tick. The CardMesh collaborator itself lives outside the
source tree, so its animation dynamics are modelled from the spec; everything
else is translated directly from the component source.

Times are rational numbers of seconds; the source's decimal literals become
exact rationals (0.05 = 1/20, 0.25 = 1/4, 0.1 = 1/10, 0.566 = 283/500,
0.025 = 1/40).
-/

attribute [local semireducible] Rat.add Rat.sub Rat.mul Rat.inv Rat.ofScientific

/-- Maximum of two rationals, written with an explicit comparison so that it
evaluates by kernel reduction. -/
def qmax (a b : ℚ) : ℚ := if a ≤ b then b else a

/-- Minimum of two rationals, written with an explicit comparison so that it
evaluates by kernel reduction. -/
def qmin (a b : ℚ) : ℚ := if a ≤ b then a else b

/-- Animation direction of a card mesh: idle before any transition has been
requested, showing after a show() call, hiding after a hide() call. -/
inductive AnimDir
| idle
| showing
| hiding
deriving DecidableEq

/-- Modelled from the spec: the CardMesh/CardPanel collaborator (its source is
not part of this repository snapshot). animIn is the animation progress in
[0,1] (0 = fully hidden, 1 = fully shown), delay the remaining configured
delay before progress moves, dir the current animation direction. -/
structure CardMesh where
  animIn : ℚ
  delay : ℚ
  dir : AnimDir
deriving DecidableEq

/-- Modelled from the spec: show(delaySeconds, staggerSeconds) starts the show
animation after the configured delay; the stagger is additional delay. -/
def CardMesh.showMesh (m : CardMesh) (d s : ℚ) : CardMesh :=
  { m with delay := d + s, dir := AnimDir.showing }

/-- Modelled from the spec: hide(delaySeconds, staggerSeconds) starts the hide
animation after the configured delay; the stagger is additional delay. -/
def CardMesh.hideMesh (m : CardMesh) (d s : ℚ) : CardMesh :=
  { m with delay := d + s, dir := AnimDir.hiding }

/-- Modelled from the spec: advance(dt). While configured delay remains it is
consumed; afterwards progress moves toward the direction's target at unit
rate, clamped to [0,1]. The Bool is the hide-complete notification: progress
reached exactly 0 on this advance of a hiding mesh (the spec ties the
notification to progress reaching 0 after a hide sequence). -/
def CardMesh.tick (m : CardMesh) (dt : ℚ) : CardMesh × Bool :=
  if 0 < m.delay then ({ m with delay := m.delay - dt }, false)
  else
    match m.dir with
    | AnimDir.idle => (m, false)
    | AnimDir.showing => ({ m with animIn := qmin 1 (m.animIn + dt) }, false)
    | AnimDir.hiding =>
        ({ m with animIn := qmax 0 (m.animIn - dt) },
         decide (0 < m.animIn) && decide (qmax 0 (m.animIn - dt) = 0))

/-- A freshly constructed mesh: fully hidden, no pending animation. -/
def CardMesh.initial : CardMesh := ⟨0, 0, AnimDir.idle⟩

/-- Observable side effects of the component, in the order the source performs
them. State mutations on host entities (addState/removeState), the calls into
the two CardMesh panels, the positioning steps of onShow, analytics calls, and
events emitted outward through the entity element. -/
inductive Effect
| addSceneState (name : String)
| addTextState (name : String)
| removeSceneState (name : String)
| removeElState (name : String)
| removeTextState (name : String)
| bgShowCall (d s : ℚ)
| headerShowCall (d s : ℚ)
| bgHideCall (d s : ℚ)
| headerHideCall (d s : ℚ)
| setDummyPos (x y z : ℚ)
| sampleAnchor
| setElPosition (x y z : ℚ)
| lookAtUpdate
| gaEvent (a : String)
| emitOut (name : String)
deriving DecidableEq

/-- Component state: the two panels, the named states on the scene, the
element and the header text entity, the element's visible attribute (written
by tick), the element's world position and the ui-dummy's local z offset. -/
structure CompState where
  background : CardMesh
  header : CardMesh
  sceneModal : Bool
  elVisibleState : Bool
  textVisible : Bool
  visibleAttr : Bool
  elPosition : ℚ × ℚ × ℚ
  dummyZ : ℚ
deriving DecidableEq

/-- State after init and before any trigger: both meshes hidden, no states
set. -/
def CompState.initial : CompState :=
  ⟨CardMesh.initial, CardMesh.initial, false, false, false, false, (0, 0, 0), 0⟩

/-- onShow, source lines 135-152. zOffset models PlatformUtils.getCardZOffset()
(platform-dependent, external collaborator); anchor models the world position
the ui-dummy reports once its local position has been set to (0,0,zOffset)
(scene graph, external collaborator). The source, in order: sceneEl.addState
modal; headerText.addState visible; background.show(0.25, 0.05);
header.show(0.05); positionDummy.setAttribute position (0,0,zOffset);
getWorldPosition sample; el.setAttribute position; look-at-target update. -/
def onShow (zOffset : ℚ) (anchor : ℚ → ℚ × ℚ × ℚ) (s : CompState) :
    CompState × List Effect :=
  let p := anchor zOffset
  ({ s with
      sceneModal := true,
      textVisible := true,
      background := s.background.showMesh (1/4) (1/20),
      header := s.header.showMesh (1/20) 0,
      dummyZ := zOffset,
      elPosition := p },
   [Effect.addSceneState "modal", Effect.addTextState "visible",
    Effect.bgShowCall (1/4) (1/20), Effect.headerShowCall (1/20) 0,
    Effect.setDummyPos 0 0 zOffset, Effect.sampleAnchor,
    Effect.setElPosition p.1 p.2.1 p.2.2, Effect.lookAtUpdate])

/-- The onHide body, source lines 154-164, together with the host's state
dispatch semantics: el.removeState visible (line 157) synchronously fires the
stateremoved listener when the state was present, and that listener invokes
onHide again at that point (source lines 117-120). The fuel bounds the
dispatch depth; the re-entrant call always finds the state already removed,
so fuel 2 is exact (onHideN_stable below). The body, in order:
sceneEl.removeState modal; el.removeState visible (dispatch point);
headerText.removeState visible; background.hide(); header.hide(0.05, 0.25). -/
def onHideN : Nat → CompState → CompState × List Effect
| 0, s => (s, [])
| Nat.succ n, s =>
  let wasVisible := s.elVisibleState
  let s1 := { s with sceneModal := false, elVisibleState := false }
  let inner := if wasVisible then onHideN n s1 else (s1, [])
  let s2 := inner.1
  ({ s2 with
      textVisible := false,
      background := s2.background.hideMesh 0 0,
      header := s2.header.hideMesh (1/20) (1/4) },
   [Effect.removeSceneState "modal", Effect.removeElState "visible"] ++ inner.2 ++
   [Effect.removeTextState "visible", Effect.bgHideCall 0 0,
    Effect.headerHideCall (1/20) (1/4)])

/-- A single execution of the onHide body with no re-entrant dispatch (at fuel
1 the inner dispatch contributes nothing). This is the method of source lines
154-164 viewed in isolation. -/
def onHideBody (s : CompState) : CompState × List Effect := onHideN 1 s

/-- onHide as it actually runs under the host's synchronous state dispatch. -/
def onHide (s : CompState) : CompState × List Effect := onHideN 2 s

/-- stateadded listener, source lines 110-114: a state other than visible is
ignored; otherwise ga fires and then onShow runs. gaOk = false models the
analytics global being missing or throwing: the source has no try/catch, so in
that case the exception aborts the listener before onShow executes. -/
def stateAddedHandler (gaOk : Bool) (st : String) (zOffset : ℚ)
    (anchor : ℚ → ℚ × ℚ × ℚ) (s : CompState) : CompState × List Effect :=
  if st ≠ "visible" then (s, [])
  else if gaOk then
    let r := onShow zOffset anchor s
    (r.1, Effect.gaEvent "opened" :: r.2)
  else (s, [])

/-- stateremoved listener, source lines 117-120: a state other than visible is
ignored; otherwise onHide runs. There is no analytics call on this path. -/
def stateRemovedHandler (st : String) (s : CompState) : CompState × List Effect :=
  if st ≠ "visible" then (s, []) else onHide s

/-- raycaster-cursor-up listener, source lines 123-126: unconditional (no
guard on current visibility); ga fires, then onHide. gaOk = false models a
throwing or missing ga aborting the listener before onHide. -/
def clickHandler (gaOk : Bool) (s : CompState) : CompState × List Effect :=
  if gaOk then
    let r := onHide s
    (r.1, Effect.gaEvent "dismissed" :: r.2)
  else (s, [])

/-- tick, source lines 166-173: advance the background, then the header, then
set the element's visible attribute to (header.animIn > 0). The header's
hide-complete notification is forwarded outward through the element (source
lines 128-132); the background's is not subscribed. -/
def tick (s : CompState) (dt : ℚ) : CompState × List Effect :=
  let bg := s.background.tick dt
  let hd := s.header.tick dt
  ({ s with
      background := bg.1,
      header := hd.1,
      visibleAttr := decide (0 < hd.1.animIn) },
   if hd.2 then [Effect.emitOut "hide-complete"] else [])

/-- External triggers driving the component. reveal models el.addState visible
(the host adds the state only when it is absent, then fires stateadded);
dismiss models a hitbox click; frame models one scheduler tick. -/
inductive Op
| reveal
| dismiss
| frame (dt : ℚ)
deriving DecidableEq

/-- Whether the trigger is the reveal trigger. -/
def Op.isReveal : Op → Bool
| Op.reveal => true
| _ => false

/-- Whether the trigger is the dismiss trigger. -/
def Op.isDismiss : Op → Bool
| Op.dismiss => true
| _ => false

/-- A frame trigger carries a nonnegative elapsed time (physical frame time);
non-frame triggers pass trivially. -/
def Op.okDt : Op → Bool
| Op.frame dt => decide (0 ≤ dt)
| _ => true

/-- One trigger step of the component. -/
def step (zOffset : ℚ) (anchor : ℚ → ℚ × ℚ × ℚ) (s : CompState) :
    Op → CompState × List Effect
| Op.reveal =>
    if s.elVisibleState then (s, [])
    else stateAddedHandler true "visible" zOffset anchor
      { s with elVisibleState := true }
| Op.dismiss => clickHandler true s
| Op.frame dt => tick s dt

/-- Run a sequence of triggers, concatenating the observable effects. -/
def run (zOffset : ℚ) (anchor : ℚ → ℚ × ℚ × ℚ) (s : CompState) :
    List Op → CompState × List Effect
| [] => (s, [])
| op :: ops =>
    let r := step zOffset anchor s op
    let r2 := run zOffset anchor r.1 ops
    (r2.1, r.2 ++ r2.2)

/-- Number of hide-complete events emitted outward over a run. -/
def hiddenEmits (zOffset : ℚ) (anchor : ℚ → ℚ × ℚ × ℚ) (s : CompState)
    (ops : List Op) : Nat :=
  (run zOffset anchor s ops).2.count (Effect.emitOut "hide-complete")

/-- A fixed trivial anchor used for concrete evaluations. -/
def anchor0 : ℚ → ℚ × ℚ × ℚ := fun _ => (0, 0, 0)

/-- Effect recognizers used to express occurrence counts. -/
def isAnchorSample : Effect → Bool
| Effect.sampleAnchor => true
| _ => false

/-- Recognizer for scene modal state removal. -/
def isRemoveScene : Effect → Bool
| Effect.removeSceneState _ => true
| _ => false

/-- Recognizer for element visible state removal. -/
def isRemoveEl : Effect → Bool
| Effect.removeElState _ => true
| _ => false

/-- Recognizer for header text visible state removal. -/
def isRemoveText : Effect → Bool
| Effect.removeTextState _ => true
| _ => false

/-- Recognizer for background hide calls. -/
def isBgHide : Effect → Bool
| Effect.bgHideCall _ _ => true
| _ => false

/-- Recognizer for header hide calls. -/
def isHeaderHide : Effect → Bool
| Effect.headerHideCall _ _ => true
| _ => false

/-- Delay and stagger arguments of the header show calls in a trace. -/
def headerShowArgs (tr : List Effect) : List (ℚ × ℚ) :=
  tr.filterMap fun e => match e with
  | Effect.headerShowCall d s => some (d, s)
  | _ => none

/-- Delay and stagger arguments of the background show calls in a trace. -/
def bgShowArgs (tr : List Effect) : List (ℚ × ℚ) :=
  tr.filterMap fun e => match e with
  | Effect.bgShowCall d s => some (d, s)
  | _ => none

/-- Delay and stagger arguments of the header hide calls in a trace. -/
def headerHideArgs (tr : List Effect) : List (ℚ × ℚ) :=
  tr.filterMap fun e => match e with
  | Effect.headerHideCall d s => some (d, s)
  | _ => none

/-- Delay and stagger arguments of the background hide calls in a trace. -/
def bgHideArgs (tr : List Effect) : List (ℚ × ℚ) :=
  tr.filterMap fun e => match e with
  | Effect.bgHideCall d s => some (d, s)
  | _ => none

/-- The transition calls issued by one reveal (playIn). -/
def playInEffects : List Effect := (onShow 0 anchor0 CompState.initial).2

/-- The transition calls issued by one dismiss body (playOut). -/
def playOutEffects : List Effect := (onHideBody CompState.initial).2

/-- The claim's notion of an exact mirror, following the claim's words: the
playOut hide calls carry the same delay magnitudes as the playIn show calls
with the layer order reversed, the (delay, stagger) pair taken either as-is or
transposed. -/
def MirrorStagger : Prop :=
  (bgHideArgs playOutEffects = headerShowArgs playInEffects ∧
   headerHideArgs playOutEffects = bgShowArgs playInEffects) ∨
  (bgHideArgs playOutEffects = (headerShowArgs playInEffects).map Prod.swap ∧
   headerHideArgs playOutEffects = (bgShowArgs playInEffects).map Prod.swap)

/-- Configuration schema of the component, source lines 39-43. -/
structure OverlayConfig where
  height : ℚ
  width : ℚ
  title : String

/-- Header geometry constant, source line 30 (0.1). -/
def HEADER_HEIGHT : ℚ := 1/10

/-- Header vertical offset constant, source line 31 (0.566). -/
def HEADER_Y_OFFSET : ℚ := 283/500

/-- Text left padding constant, source line 32 (0.025). -/
def TEXT_LEFT_PADDING : ℚ := 1/40

/-- The entity attributes computed by init, source lines 45-107: mesh sizes,
header mesh offset, header text entity position, and the info-card-text
attributes of the title text entity (JS toUpperCase is modelled as mapping
Char.toUpper over the characters). -/
structure InitLayout where
  headerTextValue : String
  headerTextWidth : ℚ
  wrapCount : Nat
  letterSpacing : Nat
  headerElPos : ℚ × ℚ × ℚ
  headerMeshY : ℚ
  backgroundSize : ℚ × ℚ
  headerSize : ℚ × ℚ
  hitboxZ : ℚ

/-- init's construction of the card's entities from the configuration,
source lines 45-107. -/
def initCard (cfg : OverlayConfig) : InitLayout :=
  { headerTextValue := String.mk (cfg.title.data.map Char.toUpper),
    headerTextWidth := cfg.width,
    wrapCount := 64,
    letterSpacing := 6,
    headerElPos := (-cfg.width / 2 + TEXT_LEFT_PADDING,
                    HEADER_Y_OFFSET - HEADER_HEIGHT / 2 + 1/40, 0),
    headerMeshY := HEADER_Y_OFFSET,
    backgroundSize := (cfg.width, cfg.height),
    headerSize := (cfg.width, HEADER_HEIGHT),
    hitboxZ := -1 }

/-- Concrete state used by the C1 witness: header mid-way through hiding. -/
def hidingHalf : CompState :=
  { CompState.initial with header := ⟨1/2, 0, AnimDir.hiding⟩ }

/-- Concrete state used by the C9 witness: the element has the visible state. -/
def visibleInit : CompState :=
  { CompState.initial with elVisibleState := true }

/-- C1: tick advances the background by dt, then the header by dt, then sets
the element's visible attribute to (header.animIn > 0) computed from the
post-advance header; in particular the attribute is false on the very tick in
which the header's progress reaches exactly 0, and the recomputation happens
on every tick for every state. -/
theorem c1_tick (s : CompState) (dt : ℚ) :
    (tick s dt).1.background = (s.background.tick dt).1 ∧
    (tick s dt).1.header = (s.header.tick dt).1 ∧
    (tick s dt).1.visibleAttr = decide (0 < (tick s dt).1.header.animIn) ∧
    ((tick s dt).1.header.animIn = 0 → (tick s dt).1.visibleAttr = false) := by
  refine ⟨rfl, rfl, rfl, ?_⟩
  intro h
  show decide (0 < (s.header.tick dt).1.animIn) = false
  have h' : (s.header.tick dt).1.animIn = 0 := h
  rw [h']
  simp

/-- Witness for C1: from a header mid-way through hiding, a 1-second tick
brings progress to exactly 0 and the visible attribute to false on that same
tick. -/
theorem c1_witness :
    (tick hidingHalf 1).1.header.animIn = 0 ∧
    (tick hidingHalf 1).1.visibleAttr = false :=
  ⟨by decide, (c1_tick hidingHalf 1).2.2.2 (by decide)⟩

/-- C2: onReveal performs, in order: (a) scene modal state added, (b) title
text visible state added, (c) the in-transition with header.show(0.05) and
background.show(0.25, 0.05), (d) the camera anchor sampled exactly once with
the platform z offset applied to the dummy first and the element position set
to the sample, (e) the look-at orientation recomputed at the end of the same
handler. -/
theorem c2_onShow_effects (z : ℚ) (a : ℚ → ℚ × ℚ × ℚ) (s : CompState) :
    (onShow z a s).2 =
      [Effect.addSceneState "modal", Effect.addTextState "visible",
       Effect.bgShowCall (1/4) (1/20), Effect.headerShowCall (1/20) 0,
       Effect.setDummyPos 0 0 z, Effect.sampleAnchor,
       Effect.setElPosition (a z).1 (a z).2.1 (a z).2.2, Effect.lookAtUpdate] ∧
    (onShow z a s).2.filter isAnchorSample = [Effect.sampleAnchor] ∧
    (onShow z a s).1.elPosition = a z ∧
    (onShow z a s).1.sceneModal = true ∧
    (onShow z a s).1.textVisible = true ∧
    (onShow z a s).1.background = s.background.showMesh (1/4) (1/20) ∧
    (onShow z a s).1.header = s.header.showMesh (1/20) 0 :=
  ⟨rfl, rfl, rfl, rfl, rfl, rfl, rfl⟩

/-- C3: one execution of onDismiss removes the scene modal state, the
element's own visible state and the title text's visible state, then calls
background.hide() with no delay and header.hide(0.05, 0.25), in that order;
the background's hide delay is strictly smaller than the header's, so the
background starts hiding first. -/
theorem c3_onHide_effects (s : CompState) :
    (onHideBody s).2 =
      [Effect.removeSceneState "modal", Effect.removeElState "visible",
       Effect.removeTextState "visible", Effect.bgHideCall 0 0,
       Effect.headerHideCall (1/20) (1/4)] ∧
    (onHideBody s).1.sceneModal = false ∧
    (onHideBody s).1.elVisibleState = false ∧
    (onHideBody s).1.textVisible = false ∧
    (onHideBody s).1.background = s.background.hideMesh 0 0 ∧
    (onHideBody s).1.header = s.header.hideMesh (1/20) (1/4) ∧
    (onHideBody s).1.background.delay < (onHideBody s).1.header.delay := by
  have hb : onHideBody s = onHideN 1 s := rfl
  cases hv : s.elVisibleState <;>
    simp [onHideBody, onHideN, hv, CardMesh.hideMesh] <;> norm_num

/-- C10: init sets the title text entity's value to the configured title
converted to upper case, for every configuration; on a mixed-case title the
displayed value differs from the configured string. -/
theorem c10_title_upper (cfg : OverlayConfig) :
    (initCard cfg).headerTextValue = String.mk (cfg.title.data.map Char.toUpper) ∧
    (initCard ⟨1, 2, "Map"⟩).headerTextValue = "MAP" ∧
    (initCard ⟨1, 2, "Map"⟩).headerTextValue ≠ "Map" :=
  ⟨rfl, by decide, by decide⟩

/-- C5 counterexample: calling onDismiss while the overlay is Hidden is not a
no-op: from the initial (hidden) state it still emits the state removals and
both hide calls, and it mutates the panel state (the header is put into the
hiding direction). There is no guard reading panel progress. -/
theorem c5_cex :
    (onHide CompState.initial).2 ≠ [] ∧
    (onHide CompState.initial).1 ≠ CompState.initial ∧
    (onHide CompState.initial).1.header.dir = AnimDir.hiding ∧
    CompState.initial.header.dir ≠ AnimDir.hiding := by
  refine ⟨?_, ?_, by decide, by decide⟩ <;> decide

/-- C5 amended: neither handler is guarded. onShow and onHide produce the
same effect trace from every state (in particular onShow re-issues both show
calls when already shown, and onHide from the hidden initial state is not a
no-op), and an immediate second onShow leaves the state exactly as after the
first because the same show parameters are overwritten. -/
theorem c5_unguarded (z : ℚ) (a : ℚ → ℚ × ℚ × ℚ) (s t : CompState) :
    (onShow z a (onShow z a s).1).1 = (onShow z a s).1 ∧
    (onShow z a s).2 = (onShow z a t).2 ∧
    (onHideBody s).2 = (onHideBody t).2 ∧
    (onHideBody CompState.initial).2 ≠ [] := by
  refine ⟨?_, rfl, ?_, by decide⟩
  · simp [onShow, CardMesh.showMesh]
  · cases hs : s.elVisibleState <;> cases ht : t.elVisibleState <;>
      simp [onHideBody, onHideN, hs, ht]

/-- The effect trace of one onHide body is the same five calls from every
state. -/
theorem onHideBody_trace (s : CompState) :
    (onHideBody s).2 =
      [Effect.removeSceneState "modal", Effect.removeElState "visible",
       Effect.removeTextState "visible", Effect.bgHideCall 0 0,
       Effect.headerHideCall (1/20) (1/4)] := by
  cases hv : s.elVisibleState <;> simp [onHideBody, onHideN, hv]

/-- One onHide body sends the header into hiding with delay 0.05 plus stagger
0.25. -/
theorem onHideBody_header (s : CompState) :
    (onHideBody s).1.header = s.header.hideMesh (1/20) (1/4) := by
  cases hv : s.elVisibleState <;> simp [onHideBody, onHideN, hv]

/-- One onHide body sends the background into hiding with no delay. -/
theorem onHideBody_background (s : CompState) :
    (onHideBody s).1.background = s.background.hideMesh 0 0 := by
  cases hv : s.elVisibleState <;> simp [onHideBody, onHideN, hv]

/-- C6 counterexample: the playOut stagger is not the exact mirror of the
playIn stagger. The background's hide call carries delay 0 and stagger 0,
while the header's show call carries delay 0.05; neither the as-is nor the
transposed pairing of the reversed layers matches. -/
theorem c6_cex : ¬ MirrorStagger := by
  intro h
  rcases h with ⟨h1, _⟩ | ⟨h1, _⟩ <;> revert h1 <;> decide

/-- C6 amended: playOut reverses the layer lead order of playIn (the header
leads the reveal, the background leads the dismissal) and the trailing
layer's delay and stagger magnitudes are transposed between
background.show(0.25, 0.05) and header.hide(0.05, 0.25); but it is not an
exact mirror: the leading layer's delay is 0.05 on reveal and 0 on dismissal,
so the layer that entered last (the background) exits first. -/
theorem c6_transposed (z : ℚ) (a : ℚ → ℚ × ℚ × ℚ) (s t : CompState) :
    headerShowArgs (onShow z a s).2 = [(1/20, 0)] ∧
    bgShowArgs (onShow z a s).2 = [(1/4, 1/20)] ∧
    bgHideArgs (onHideBody t).2 = [(0, 0)] ∧
    headerHideArgs (onHideBody t).2 = [Prod.swap (1/4, 1/20)] ∧
    (onShow z a s).1.header.delay < (onShow z a s).1.background.delay ∧
    (onHideBody t).1.background.delay < (onHideBody t).1.header.delay ∧
    ((0 : ℚ), (0 : ℚ)) ≠ ((1/20 : ℚ), (0 : ℚ)) := by
  refine ⟨rfl, rfl, ?_, ?_, ?_, ?_, by decide⟩
  · rw [onHideBody_trace]; decide
  · rw [onHideBody_trace]; decide
  · show (1 : ℚ)/20 + 0 < 1/4 + 1/20
    norm_num
  · rw [onHideBody_header, onHideBody_background]
    show (0 : ℚ) + 0 < 1/20 + 1/4
    norm_num

/-- C7 counterexample: on reveal the header's show call does not start with
zero delay — its recorded delay argument is 0.05, not 0. -/
theorem c7_cex :
    headerShowArgs playInEffects = [(1/20, 0)] ∧
    ¬ ∀ p ∈ headerShowArgs playInEffects, p.1 = 0 := by
  refine ⟨rfl, ?_⟩
  intro h
  have := h (1/20, 0) (by decide)
  revert this
  decide

/-- C7 amended: on reveal the header's show is issued with a short fixed
delay of 0.05 seconds (not zero) and the background's with 0.25 seconds plus
a 0.05 stagger, so the header starts earlier than the background but not
immediately. -/
theorem c7_header_leads (z : ℚ) (a : ℚ → ℚ × ℚ × ℚ) (s : CompState) :
    headerShowArgs (onShow z a s).2 = [(1/20, 0)] ∧
    bgShowArgs (onShow z a s).2 = [(1/4, 1/20)] ∧
    0 < (onShow z a s).1.header.delay ∧
    (onShow z a s).1.header.delay < (onShow z a s).1.background.delay := by
  refine ⟨rfl, rfl, ?_, ?_⟩
  · show (0 : ℚ) < 1/20 + 0
    norm_num
  · show (1 : ℚ)/20 + 0 < 1/4 + 1/20
    norm_num

/-- C8 counterexample: with the analytics call failing (gaOk = false), the
reveal listener performs none of the show side effects — the state is
unchanged and the trace is empty — and likewise the click-dismiss listener
performs none of the hide side effects; the failure is not swallowed. -/
theorem c8_cex :
    stateAddedHandler false "visible" 0 anchor0 CompState.initial =
      (CompState.initial, []) ∧
    Effect.bgShowCall (1/4) (1/20) ∈
      (stateAddedHandler true "visible" 0 anchor0 CompState.initial).2 ∧
    clickHandler false CompState.initial = (CompState.initial, []) ∧
    Effect.bgHideCall 0 0 ∈ (clickHandler true CompState.initial).2 := by
  refine ⟨by decide, by decide, by decide, by decide⟩

/-- C8 amended: the ga call precedes the handler body with no try/catch in
both the reveal listener and the click listener, so a missing or throwing ga
aborts those handlers before any show/hide side effect runs; when ga
succeeds it is fire-and-forget (prepended to the unchanged handler effects).
The stateremoved dismiss path makes no analytics call at all. -/
theorem c8_ga_aborts (z : ℚ) (a : ℚ → ℚ × ℚ × ℚ) (s : CompState) :
    stateAddedHandler false "visible" z a s = (s, []) ∧
    clickHandler false s = (s, []) ∧
    (stateAddedHandler true "visible" z a s).2 =
      Effect.gaEvent "opened" :: (onShow z a s).2 ∧
    (stateAddedHandler true "visible" z a s).1 = (onShow z a s).1 ∧
    (clickHandler true s).2 = Effect.gaEvent "dismissed" :: (onHide s).2 ∧
    (clickHandler true s).1 = (onHide s).1 ∧
    stateRemovedHandler "visible" s = onHide s :=
  ⟨rfl, rfl, rfl, rfl, rfl, rfl, rfl⟩

/-- C9: a hitbox click runs onHide unconditionally (the two hide calls are
issued from every state), and when the element's visible state is present the
removal of that state re-fires the stateremoved listener, which runs onHide a
second time: each of the five hide side effects (three state removals and the
two panel hide calls) occurs exactly twice in the trace of that single
click. -/
theorem c9_double_hide (s : CompState) :
    Effect.bgHideCall 0 0 ∈ (clickHandler true s).2 ∧
    Effect.headerHideCall (1/20) (1/4) ∈ (clickHandler true s).2 ∧
    (s.elVisibleState = true →
      ((clickHandler true s).2.filter isRemoveScene).length = 2 ∧
      ((clickHandler true s).2.filter isRemoveEl).length = 2 ∧
      ((clickHandler true s).2.filter isRemoveText).length = 2 ∧
      ((clickHandler true s).2.filter isBgHide).length = 2 ∧
      ((clickHandler true s).2.filter isHeaderHide).length = 2) := by
  refine ⟨?_, ?_, ?_⟩
  · cases hv : s.elVisibleState <;> simp [clickHandler, onHide, onHideN, hv]
  · cases hv : s.elVisibleState <;> simp [clickHandler, onHide, onHideN, hv]
  · intro hv
    have htr : (clickHandler true s).2 =
        [Effect.gaEvent "dismissed",
         Effect.removeSceneState "modal", Effect.removeElState "visible",
         Effect.removeSceneState "modal", Effect.removeElState "visible",
         Effect.removeTextState "visible", Effect.bgHideCall 0 0,
         Effect.headerHideCall (1/20) (1/4),
         Effect.removeTextState "visible", Effect.bgHideCall 0 0,
         Effect.headerHideCall (1/20) (1/4)] := by
      simp [clickHandler, onHide, onHideN, hv]
    rw [htr]
    decide

/-- Witness for C9: from the initial state with the visible state present, a
single click yields each hide side effect twice. -/
theorem c9_witness :
    visibleInit.elVisibleState = true ∧
    ((clickHandler true visibleInit).2.filter isBgHide).length = 2 :=
  ⟨rfl, ((c9_double_hide visibleInit).2.2 rfl).2.2.2.1⟩

/-- Unfolding of an advance while delay remains. -/
theorem CardMesh.tick_delay (m : CardMesh) (dt : ℚ) (hd : 0 < m.delay) :
    m.tick dt = ({ m with delay := m.delay - dt }, false) := by
  simp [CardMesh.tick, hd]

/-- Unfolding of an advance of an idle mesh with no delay left. -/
theorem CardMesh.tick_idle (m : CardMesh) (dt : ℚ) (hd : ¬ 0 < m.delay)
    (hdir : m.dir = AnimDir.idle) : m.tick dt = (m, false) := by
  simp [CardMesh.tick, hd, hdir]

/-- Unfolding of an advance of a showing mesh with no delay left. -/
theorem CardMesh.tick_showing (m : CardMesh) (dt : ℚ) (hd : ¬ 0 < m.delay)
    (hdir : m.dir = AnimDir.showing) :
    m.tick dt = ({ m with animIn := qmin 1 (m.animIn + dt) }, false) := by
  simp [CardMesh.tick, hd, hdir]

/-- Unfolding of an advance of a hiding mesh with no delay left. -/
theorem CardMesh.tick_hiding (m : CardMesh) (dt : ℚ) (hd : ¬ 0 < m.delay)
    (hdir : m.dir = AnimDir.hiding) :
    m.tick dt = ({ m with animIn := qmax 0 (m.animIn - dt) },
      decide (0 < m.animIn) && decide (qmax 0 (m.animIn - dt) = 0)) := by
  simp [CardMesh.tick, hd, hdir]

/-- Advancing a mesh never changes its direction. -/
theorem CardMesh.tick_dir (m : CardMesh) (dt : ℚ) : (m.tick dt).1.dir = m.dir := by
  by_cases hd : 0 < m.delay
  · rw [CardMesh.tick_delay m dt hd]
  · cases hdir : m.dir
    · rw [CardMesh.tick_idle m dt hd hdir]
      exact hdir
    · rw [CardMesh.tick_showing m dt hd hdir, hdir]
    · rw [CardMesh.tick_hiding m dt hd hdir, hdir]

/-- If an advance reports hide-complete, the mesh was hiding with positive
progress and ends the advance at progress exactly 0. -/
theorem CardMesh.tick_emit (m : CardMesh) (dt : ℚ) (h : (m.tick dt).2 = true) :
    m.dir = AnimDir.hiding ∧ 0 < m.animIn ∧ (m.tick dt).1.animIn = 0 := by
  by_cases hd : 0 < m.delay
  · rw [CardMesh.tick_delay m dt hd] at h
    simp at h
  · cases hdir : m.dir
    · rw [CardMesh.tick_idle m dt hd hdir] at h
      simp at h
    · rw [CardMesh.tick_showing m dt hd hdir] at h
      simp at h
    · rw [CardMesh.tick_hiding m dt hd hdir] at h
      have h2 : 0 < m.animIn ∧ qmax 0 (m.animIn - dt) = 0 := by
        simpa using h
      refine ⟨rfl, h2.1, ?_⟩
      rw [CardMesh.tick_hiding m dt hd hdir]
      exact h2.2

/-- A mesh at progress 0 that is not showing stays at progress 0 under a
nonnegative advance and reports no completion. -/
theorem CardMesh.tick_stay_zero (m : CardMesh) (dt : ℚ) (h0 : m.animIn = 0)
    (hdir : m.dir ≠ AnimDir.showing) (hdt : 0 ≤ dt) :
    (m.tick dt).1.animIn = 0 ∧ (m.tick dt).2 = false := by
  by_cases hd : 0 < m.delay
  · rw [CardMesh.tick_delay m dt hd]
    exact ⟨h0, rfl⟩
  · cases hdir2 : m.dir
    · rw [CardMesh.tick_idle m dt hd hdir2]
      exact ⟨h0, rfl⟩
    · exact absurd hdir2 hdir
    · rw [CardMesh.tick_hiding m dt hd hdir2]
      constructor
      · show qmax 0 (m.animIn - dt) = 0
        rw [h0]
        unfold qmax
        split <;> linarith
      · show (decide (0 < m.animIn) && decide (qmax 0 (m.animIn - dt) = 0)) = false
        rw [h0]
        simp

/-- onHide under dispatch leaves the header hiding with the delay of the
header hide call, keeping its progress. -/
theorem onHide_header (s : CompState) :
    (onHide s).1.header = s.header.hideMesh (1/20) (1/4) := by
  cases hv : s.elVisibleState <;> simp [onHide, onHideN, hv, CardMesh.hideMesh]

/-- onHide under dispatch emits nothing outward. -/
theorem onHide_no_emit (s : CompState) (nm : String) :
    Effect.emitOut nm ∉ (onHide s).2 := by
  cases hv : s.elVisibleState <;> simp [onHide, onHideN, hv]

/-- The reveal trigger emits nothing outward. -/
theorem step_no_emit_reveal (z : ℚ) (a : ℚ → ℚ × ℚ × ℚ) (s : CompState)
    (nm : String) : Effect.emitOut nm ∉ (step z a s Op.reveal).2 := by
  by_cases hv : s.elVisibleState <;>
    simp [step, hv, stateAddedHandler, onShow]

/-- The dismiss trigger emits nothing outward. -/
theorem step_no_emit_dismiss (z : ℚ) (a : ℚ → ℚ × ℚ × ℚ) (s : CompState)
    (nm : String) : Effect.emitOut nm ∉ (step z a s Op.dismiss).2 := by
  intro hmem
  simp [step, clickHandler] at hmem
  exact onHide_no_emit s nm hmem

/-- Trace of a frame trigger. -/
theorem step_frame_trace (z : ℚ) (a : ℚ → ℚ × ℚ × ℚ) (s : CompState) (dt : ℚ) :
    (step z a s (Op.frame dt)).2 =
      if (s.header.tick dt).2 then [Effect.emitOut "hide-complete"] else [] := rfl

/-- Header after a frame trigger. -/
theorem step_frame_header (z : ℚ) (a : ℚ → ℚ × ℚ × ℚ) (s : CompState) (dt : ℚ) :
    (step z a s (Op.frame dt)).1.header = (s.header.tick dt).1 := rfl

/-- Emission count over a run splits at the first trigger. -/
theorem run_cons (z : ℚ) (a : ℚ → ℚ × ℚ × ℚ) (s : CompState) (op : Op)
    (ops : List Op) :
    hiddenEmits z a s (op :: ops) =
      (step z a s op).2.count (Effect.emitOut "hide-complete") +
        hiddenEmits z a (step z a s op).1 ops := by
  simp [hiddenEmits, run, List.count_append]

/-- Emission count of a run with no triggers. -/
theorem run_nil (z : ℚ) (a : ℚ → ℚ × ℚ × ℚ) (s : CompState) :
    hiddenEmits z a s [] = 0 := by
  simp [hiddenEmits, run]

/-- Emission count of a reveal step is zero. -/
theorem step_count_reveal (z : ℚ) (a : ℚ → ℚ × ℚ × ℚ) (s : CompState) :
    (step z a s Op.reveal).2.count (Effect.emitOut "hide-complete") = 0 := by
  rw [List.count_eq_zero]
  exact step_no_emit_reveal z a s "hide-complete"

/-- Emission count of a dismiss step is zero. -/
theorem step_count_dismiss (z : ℚ) (a : ℚ → ℚ × ℚ × ℚ) (s : CompState) :
    (step z a s Op.dismiss).2.count (Effect.emitOut "hide-complete") = 0 := by
  rw [List.count_eq_zero]
  exact step_no_emit_dismiss z a s "hide-complete"

/-- Emission count of a frame step mirrors the header's completion flag. -/
theorem step_count_frame (z : ℚ) (a : ℚ → ℚ × ℚ × ℚ) (s : CompState) (dt : ℚ) :
    (step z a s (Op.frame dt)).2.count (Effect.emitOut "hide-complete") =
      if (s.header.tick dt).2 then 1 else 0 := by
  rw [step_frame_trace]
  split <;> simp

/-- The header is settled: progress 0 and not being shown. After this, no
emission can occur until a reveal puts the header back into showing. -/
def HeaderDone (s : CompState) : Prop :=
  s.header.animIn = 0 ∧ s.header.dir ≠ AnimDir.showing

/-- A non-reveal trigger with valid frame time keeps the header settled and
emits nothing. -/
theorem step_preserves_done (z : ℚ) (a : ℚ → ℚ × ℚ × ℚ) (s : CompState)
    (op : Op) (h : HeaderDone s) (hop : op.isReveal = false)
    (hdt : op.okDt = true) :
    HeaderDone (step z a s op).1 ∧
      (step z a s op).2.count (Effect.emitOut "hide-complete") = 0 := by
  cases op
  · simp [Op.isReveal] at hop
  · refine ⟨⟨?_, ?_⟩, step_count_dismiss z a s⟩
    · show (clickHandler true s).1.header.animIn = 0
      have hh : (clickHandler true s).1.header = s.header.hideMesh (1/20) (1/4) := by
        show (onHide s).1.header = s.header.hideMesh (1/20) (1/4)
        exact onHide_header s
      rw [hh]
      exact h.1
    · show (clickHandler true s).1.header.dir ≠ AnimDir.showing
      have hh : (clickHandler true s).1.header = s.header.hideMesh (1/20) (1/4) := by
        show (onHide s).1.header = s.header.hideMesh (1/20) (1/4)
        exact onHide_header s
      rw [hh]
      simp [CardMesh.hideMesh]
  · rename_i dt
    have hdt' : 0 ≤ dt := by simpa [Op.okDt] using hdt
    have hz := CardMesh.tick_stay_zero s.header dt h.1 h.2 hdt'
    refine ⟨⟨?_, ?_⟩, ?_⟩
    · rw [step_frame_header]
      exact hz.1
    · rw [step_frame_header, CardMesh.tick_dir]
      exact h.2
    · rw [step_count_frame, hz.2]
      simp

/-- From a settled header, a reveal-free run with valid frame times emits
nothing. -/
theorem emits_zero_of_done (z : ℚ) (a : ℚ → ℚ × ℚ × ℚ) :
    ∀ ops : List Op, ∀ s : CompState, HeaderDone s →
      (∀ op ∈ ops, op.isReveal = false) → (∀ op ∈ ops, op.okDt = true) →
      hiddenEmits z a s ops = 0 := by
  intro ops
  induction ops with
  | nil => intro s _ _ _; exact run_nil z a s
  | cons op ops ih =>
    intro s h hrev hdt
    have hstep := step_preserves_done z a s op h (hrev op (by simp))
      (hdt op (by simp))
    rw [run_cons, hstep.2, ih (step z a s op).1 hstep.1
      (fun o ho => hrev o (by simp [ho])) (fun o ho => hdt o (by simp [ho]))]

/-- A step that emits leaves the header settled. -/
theorem step_emit_done (z : ℚ) (a : ℚ → ℚ × ℚ × ℚ) (s : CompState) (op : Op)
    (h : (step z a s op).2.count (Effect.emitOut "hide-complete") ≠ 0) :
    HeaderDone (step z a s op).1 := by
  cases op
  · exact absurd (step_count_reveal z a s) h
  · exact absurd (step_count_dismiss z a s) h
  · rename_i dt
    rw [step_count_frame] at h
    have hemit : (s.header.tick dt).2 = true := by
      by_contra hc
      simp [hc] at h
    have he := CardMesh.tick_emit s.header dt hemit
    constructor
    · rw [step_frame_header]
      exact he.2.2
    · rw [step_frame_header, CardMesh.tick_dir, he.1]
      simp

/-- Every step emits at most one hide-complete event. -/
theorem step_count_le_one (z : ℚ) (a : ℚ → ℚ × ℚ × ℚ) (s : CompState)
    (op : Op) :
    (step z a s op).2.count (Effect.emitOut "hide-complete") ≤ 1 := by
  cases op
  · rw [step_count_reveal]; omega
  · rw [step_count_dismiss]; omega
  · rw [step_count_frame]; split <;> omega

/-- At most one hide-complete event in any reveal-free run with valid frame
times, from any state. -/
theorem emits_le_one (z : ℚ) (a : ℚ → ℚ × ℚ × ℚ) :
    ∀ ops : List Op, ∀ s : CompState,
      (∀ op ∈ ops, op.isReveal = false) → (∀ op ∈ ops, op.okDt = true) →
      hiddenEmits z a s ops ≤ 1 := by
  intro ops
  induction ops with
  | nil => intro s _ _; rw [run_nil]; omega
  | cons op ops ih =>
    intro s hrev hdt
    rw [run_cons]
    by_cases hc : (step z a s op).2.count (Effect.emitOut "hide-complete") = 0
    · rw [hc]
      have := ih (step z a s op).1 (fun o ho => hrev o (by simp [ho]))
        (fun o ho => hdt o (by simp [ho]))
      omega
    · have hdone := step_emit_done z a s op hc
      have hrest := emits_zero_of_done z a ops (step z a s op).1 hdone
        (fun o ho => hrev o (by simp [ho])) (fun o ho => hdt o (by simp [ho]))
      have hle := step_count_le_one z a s op
      omega

/-- As long as the header is not hiding, a dismiss-free run emits nothing. -/
theorem emits_zero_no_dismiss (z : ℚ) (a : ℚ → ℚ × ℚ × ℚ) :
    ∀ ops : List Op, ∀ s : CompState, s.header.dir ≠ AnimDir.hiding →
      (∀ op ∈ ops, op.isDismiss = false) → hiddenEmits z a s ops = 0 := by
  intro ops
  induction ops with
  | nil => intro s _ _; exact run_nil z a s
  | cons op ops ih =>
    intro s hdir hdis
    cases op
    · rw [run_cons, step_count_reveal]
      have hdir' : (step z a s Op.reveal).1.header.dir ≠ AnimDir.hiding := by
        by_cases hv : s.elVisibleState
        · simpa [step, hv] using hdir
        · show (step z a s Op.reveal).1.header.dir ≠ AnimDir.hiding
          simp [step, hv, stateAddedHandler, onShow, CardMesh.showMesh]
      rw [ih (step z a s Op.reveal).1 hdir'
        (fun o ho => hdis o (by simp [ho]))]
    · exact absurd (hdis Op.dismiss (by simp)) (by simp [Op.isDismiss])
    · rename_i dt
      have hemit : (s.header.tick dt).2 = false := by
        by_contra hc
        have := CardMesh.tick_emit s.header dt (by revert hc; cases (s.header.tick dt).2 <;> simp)
        exact hdir this.1
      rw [run_cons, step_count_frame, hemit]
      have hdir' : (step z a s (Op.frame dt)).1.header.dir ≠ AnimDir.hiding := by
        rw [step_frame_header, CardMesh.tick_dir]
        exact hdir
      simp [ih (step z a s (Op.frame dt)).1 hdir'
        (fun o ho => hdis o (by simp [ho]))]

/-- Any outward emission of a step is the hide-complete event, and it happens
precisely when the hiding header's progress reaches exactly 0. -/
theorem step_emit_mem (z : ℚ) (a : ℚ → ℚ × ℚ × ℚ) (s : CompState) (op : Op)
    (nm : String) (hmem : Effect.emitOut nm ∈ (step z a s op).2) :
    nm = "hide-complete" ∧ s.header.dir = AnimDir.hiding ∧
      0 < s.header.animIn ∧ (step z a s op).1.header.animIn = 0 := by
  cases op
  · exact absurd hmem (step_no_emit_reveal z a s nm)
  · exact absurd hmem (step_no_emit_dismiss z a s nm)
  · rename_i dt
    rw [step_frame_trace] at hmem
    by_cases hemit : (s.header.tick dt).2 = true
    · rw [hemit] at hmem
      simp at hmem
      have he := CardMesh.tick_emit s.header dt hemit
      refine ⟨hmem, he.1, he.2.1, ?_⟩
      rw [step_frame_header]
      exact he.2.2
    · rw [Bool.not_eq_true] at hemit
      rw [hemit] at hmem
      simp at hmem

/-- C4: over any trigger sequence, (1) a reveal-free run with nonnegative
frame times emits the hide-complete event at most once, from any state, so a
second emission needs an intervening playIn; (2) a dismiss-free run from the
initial state emits nothing, so the event never fires during a reveal; (3)
every outward emission of a step is the hide-complete event and occurs
precisely when the hiding header's progress reaches exactly 0; (4) one
complete reveal-dismiss cycle emits the event exactly once. -/
theorem c4_hide_complete (z : ℚ) (a : ℚ → ℚ × ℚ × ℚ) :
    (∀ ops : List Op, ∀ s : CompState, (∀ op ∈ ops, op.isReveal = false) →
      (∀ op ∈ ops, op.okDt = true) → hiddenEmits z a s ops ≤ 1) ∧
    (∀ ops : List Op, (∀ op ∈ ops, op.isDismiss = false) →
      hiddenEmits z a CompState.initial ops = 0) ∧
    (∀ s : CompState, ∀ op : Op, ∀ nm : String,
      Effect.emitOut nm ∈ (step z a s op).2 →
        nm = "hide-complete" ∧ s.header.dir = AnimDir.hiding ∧
        0 < s.header.animIn ∧ (step z a s op).1.header.animIn = 0) ∧
    hiddenEmits 0 anchor0 CompState.initial
      [Op.reveal, Op.frame 1, Op.frame 1, Op.dismiss, Op.frame 1, Op.frame 1] = 1 := by
  refine ⟨emits_le_one z a, ?_, step_emit_mem z a, by decide⟩
  intro ops hdis
  exact emits_zero_no_dismiss z a ops CompState.initial (by decide) hdis

/-- Witness for C4: the at-most-once bound applied to a concrete reveal-free
trigger list from the initial state. -/
theorem c4_witness :
    (∀ op ∈ [Op.dismiss, Op.frame 1], op.isReveal = false) ∧
    hiddenEmits 0 anchor0 CompState.initial [Op.dismiss, Op.frame 1] ≤ 1 :=
  ⟨by decide, (c4_hide_complete 0 anchor0).1 [Op.dismiss, Op.frame 1]
    CompState.initial (by decide) (by decide)⟩

/-- Fuel 2 is exact for the dispatch semantics: any extra fuel gives the same
result, because the re-entrant call always finds the visible state already
removed and so never recurses further. -/
theorem onHideN_stable (n : Nat) (s : CompState) :
    onHideN (n + 2) s = onHideN 2 s := by
  cases hv : s.elVisibleState <;> simp [onHideN, hv]
